import Mathlib

/-
Verification of the NETATMO_BOLZANO quality-control engine
(src/src/quality_control/filters.py and sequential_qc.py).

Modelling conventions, used throughout:
* A floating-point value is modelled as `Option Rat`: `none` stands for NaN
  (a missing observation), `some q` for an ordinary value.  IEEE comparison
  semantics are preserved: every comparison involving NaN is false.
* A grid `[time, station]` is a `List (List (Option Rat))` of rows, one row
  per timestep; a flag grid is a `List (List Bool)` of the same shape.
* Spatial queries (`scipy.spatial.cKDTree.query_ball_point`) return the
  points within Euclidean distance `r`; this is embedded exactly as the
  decidable comparison `squaredDistance <= r ^ 2` over the rationals.
* The square root computed by the source in floating point (`np.std`,
  distance weighting) is irrational in general; it is abstracted as an
  explicit parameter `sqrtQ : Rat -> Rat` threaded through the embedding.
  All universally quantified theorems below hold for every such function;
  concrete witnesses instantiate it with a function that is exact on the
  squared values actually reached by the run.
* The UTM zone 33 projection applied by `buddy_check` (cartopy, again
  transcendental) is likewise threaded as a parameter `proj` where the
  pipeline needs it; `buddy_check` itself receives the projected planar
  coordinates, exactly as the spec describes its inputs.
-/

unseal Rat.mul Rat.add Rat.sub Rat.inv

namespace NetatmoQC

/-- Model of a floating-point cell: `none` is NaN, `some q` a finite value. -/
abbrev QF := Option Rat

/-- NaN-propagating subtraction, mirroring float arithmetic. -/
def fSub (a b : QF) : QF :=
  match a, b with
  | some x, some y => some (x - y)
  | _, _ => none

/-- NaN-propagating addition. -/
def fAdd (a b : QF) : QF :=
  match a, b with
  | some x, some y => some (x + y)
  | _, _ => none

/-- NaN-propagating absolute value. -/
def fAbs (a : QF) : QF := a.map (fun x => |x|)

/-- Scale a possibly-NaN value by a rational. -/
def fScale (q : Rat) (a : QF) : QF := a.map (fun x => q * x)

/-- Float comparison `a > q` against a plain rational: false when `a` is NaN. -/
def fGtQ (a : QF) (q : Rat) : Bool :=
  match a with
  | some x => decide (q < x)
  | none => false

/-- Float comparison `a < q` against a plain rational: false when `a` is NaN. -/
def fLtQ (a : QF) (q : Rat) : Bool :=
  match a with
  | some x => decide (x < q)
  | none => false

/-- Float comparison `a > b`: false when either side is NaN. -/
def fGtF (a b : QF) : Bool :=
  match a, b with
  | some x, some y => decide (y < x)
  | _, _ => false

/-- Float comparison `a < b`: false when either side is NaN. -/
def fLtF (a b : QF) : Bool :=
  match a, b with
  | some x, some y => decide (x < y)
  | _, _ => false

/-- Indexed map over a list, carrying the running index explicitly (the
embedding of numpy per-index row and cell operations). -/
def mapWithIdx (f : Nat → α → β) : Nat → List α → List β
  | _, [] => []
  | k, a :: as => f k a :: mapWithIdx f (k + 1) as

/-- A timestamp of the hourly grid (the resolution used by the source:
`pandas` timestamps grouped by year, month, day; hours inside a day). -/
structure Time where
  year : Nat
  month : Nat
  day : Nat
  hour : Nat
deriving DecidableEq, Repr

/-- Gregorian leap-year rule, as used by `pandas.Period(...).days_in_month`. -/
def isLeapYear (y : Nat) : Bool :=
  y % 4 == 0 && (y % 100 != 0 || y % 400 == 0)

/-- Number of calendar days in a month (`pandas.Period(year, month, freq M).days_in_month`). -/
def daysInMonth (y m : Nat) : Nat :=
  if m = 2 then (if isLeapYear y then 29 else 28)
  else if m = 4 ∨ m = 6 ∨ m = 9 ∨ m = 11 then 30
  else 31

/-- Days contributed by the months strictly before month `m` of year `y`. -/
def daysBeforeMonth (y m : Nat) : Nat :=
  (List.range (m - 1)).foldl (fun acc k => acc + daysInMonth y (k + 1)) 0

/-- Days contributed by the full years 1..y (proleptic Gregorian). -/
def daysBeforeYear (y : Nat) : Nat :=
  365 * y + y / 4 - y / 100 + y / 400

/-- Absolute day number of a timestamp (differences of this model pandas
Timedelta day arithmetic). -/
def absDay (t : Time) : Nat :=
  daysBeforeYear (t.year - 1) + daysBeforeMonth t.year t.month + (t.day - 1)

/-- Absolute hour number of a timestamp. -/
def absHour (t : Time) : Nat :=
  absDay t * 24 + t.hour

/-- Calendar-date key of a timestamp (`df.date.dt.date` grouping key). -/
def dayKey (t : Time) : Nat × Nat × Nat := (t.year, t.month, t.day)

/-- (year, month) key of a timestamp (monthly grouping key). -/
def ymKey (t : Time) : Nat × Nat := (t.year, t.month)

/-- Largest absolute hour in a list of timestamps (`times.max()`). -/
def maxAbsHour : List Time → Nat
  | [] => 0
  | t :: ts => ts.foldl (fun a u => max a (absHour u)) (absHour t)

/-- Smallest absolute hour in a list of timestamps (`times.min()`). -/
def minAbsHour : List Time → Nat
  | [] => 0
  | t :: ts => ts.foldl (fun a u => min a (absHour u)) (absHour t)

/-- `(times.max() - times.min()).days`: the whole-day span of the dataset. -/
def globalSpanDays (times : List Time) : Nat :=
  (maxAbsHour times - minAbsHour times) / 24

/-- Grid cell read with NaN default: out-of-range reads are treated as NaN.
Used for the per-level data grids of the pipeline. -/
def cellV (g : List (List QF)) (t s : Nat) : QF :=
  (g.getD t []).getD s none

/-- Flag-grid cell read: `some b` when the cell exists, `none` out of range. -/
def cellB (g : List (List Bool)) (t s : Nat) : Option Bool :=
  g[t]? >>= fun row => row[s]?

/-- Number of non-missing values in a row (`np.sum(~np.isnan(row))`). -/
def countSome (row : List QF) : Nat :=
  (row.filter (fun v => v.isSome)).length

/-- Masking a data grid with a flag grid: rejected cells become NaN
(`T[~flags] = np.nan` on a copy). -/
def maskGrid (g : List (List QF)) (fl : List (List Bool)) : List (List QF) :=
  List.zipWith (fun row frow => List.zipWith (fun v b => if b then v else none) row frow) g fl

/-- Meteorological seasons, as in the month-to-season map of
`check_seasonal_thresholds` (filters.py lines 14-19). -/
inductive Season where
  | DJF
  | MAM
  | JJA
  | SON
deriving DecidableEq, Repr

/-- Month-to-season map: months 12, 1, 2 are DJF; 3-5 MAM; 6-8 JJA;
9-11 SON; any other month value maps to nothing. -/
def seasonOfMonth (m : Nat) : Option Season :=
  if m = 12 ∨ m = 1 ∨ m = 2 then some Season.DJF
  else if m = 3 ∨ m = 4 ∨ m = 5 then some Season.MAM
  else if m = 6 ∨ m = 7 ∨ m = 8 then some Season.JJA
  else if m = 9 ∨ m = 10 ∨ m = 11 then some Season.SON
  else none

/-- The per-season bounds dictionary entry: either bound may be absent
(the source tests membership of the min and max keys). -/
structure SeasonLimits where
  min? : Option Rat
  max? : Option Rat
deriving DecidableEq, Repr

/-- The season-thresholds dictionary, modelled as a finite map. -/
abbrev SeasonThresholds := Season → Option SeasonLimits

/-- One vectorized constraint application
`flags &= ~(viol(values) & season_mask)`: rows whose timestamp falls in
season `σ` get each flag AND-ed with the negated violation of that cell. -/
def gridConstrain (dates : List Time) (values : List (List QF))
    (fl : List (List Bool)) (σ : Season) (viol : QF → Bool) : List (List Bool) :=
  match dates, values, fl with
  | d :: ds, vrow :: vrows, frow :: frows =>
      (if seasonOfMonth d.month = some σ then
        List.zipWith (fun v b => b && !viol v) vrow frow
      else frow) :: gridConstrain ds vrows frows σ viol
  | _, _, f => f

/-- The body of the loop over the thresholds dictionary: apply the min
bound, if configured, then the max bound, if configured (filters.py
lines 25-28).  The short-circuit for seasons absent from the dataset
(line 23) is a pure optimisation with no effect on the result and is not
reproduced. -/
def applySeasonLimit (dates : List Time) (values : List (List QF))
    (fl : List (List Bool)) (σ : Season) (lims : SeasonLimits) : List (List Bool) :=
  let fl1 :=
    match lims.min? with
    | some m => gridConstrain dates values fl σ (fun v => fLtQ v m)
    | none => fl
  match lims.max? with
  | some mx => gridConstrain dates values fl1 σ (fun v => fGtQ v mx)
  | none => fl1

/-- Left fold of `applySeasonLimit` over a list of seasons, skipping the
seasons absent from the dictionary (the iteration over the dict items). -/
def foldSeasons (dates : List Time) (values : List (List QF))
    (th : SeasonThresholds) (L : List Season) (fl : List (List Bool)) : List (List Bool) :=
  L.foldl
    (fun acc σ =>
      match th σ with
      | some lims => applySeasonLimit dates values acc σ lims
      | none => acc) fl

/-- `check_seasonal_thresholds` (filters.py lines 9-30): start from an
all-true mask and apply every configured seasonal bound. -/
def check_seasonal_thresholds (values : List (List QF)) (dates : List Time)
    (th : SeasonThresholds) : List (List Bool) :=
  foldSeasons dates values th [Season.DJF, Season.MAM, Season.JJA, Season.SON]
    (values.map (fun row => row.map (fun _ => true)))

/-- Violation of the configured lower bound (`values < limits[min]`);
an absent bound is never violated, and NaN never compares below a bound. -/
def boundViolMin (lims : SeasonLimits) (v : QF) : Bool :=
  match lims.min? with
  | some m => fLtQ v m
  | none => false

/-- Violation of the configured upper bound (`values > limits[max]`). -/
def boundViolMax (lims : SeasonLimits) (v : QF) : Bool :=
  match lims.max? with
  | some mx => fGtQ v mx
  | none => false

/-- The flag contribution of one season dictionary entry to a cell whose
timestamp is `d` and value is `v`. -/
def constraintFor (th : SeasonThresholds) (d : Time) (v : QF) (σ : Season) : Bool :=
  match th σ with
  | none => true
  | some lims =>
      if seasonOfMonth d.month = some σ then !boundViolMin lims v && !boundViolMax lims v
      else true

/-- Accumulated flag contribution of a list of seasons. -/
def seasonConstraints (th : SeasonThresholds) (d : Time) (v : QF) : List Season → Bool
  | [] => true
  | σ :: rest => constraintFor th d v σ && seasonConstraints th d v rest

/-- Number of flag-true observations of a station on calendar day `dk`
(`np.sum(group.flags)` over the daily group; the station column of the
input flags is `col`). -/
def validObsOnDay (times : List Time) (col : List Bool) (dk : Nat × Nat × Nat) : Nat :=
  (((times.zip col).filter (fun p => decide (dayKey p.1 = dk) && p.2)).map (fun p => p.2)).length

/-- The daily rejection test: `valid_obs / 24 < min_completeness`
(expected hourly count fixed at 24, filters.py lines 327-330). -/
def dayBelow (times : List Time) (col : List Bool) (mc : Rat) (dk : Nat × Nat × Nat) : Bool :=
  decide ((validObsOnDay times col dk : Rat) / 24 < mc)

/-- Timestamps of the (year, month) group `k`. -/
def monthTimes (times : List Time) (k : Nat × Nat) : List Time :=
  times.filter (fun t => decide (ymKey t = k))

/-- `len(pd.date_range(group.date.min(), group.date.max(), freq=D))`:
the number of whole days from the first to the last observation of the
group, inclusive of the start. -/
def groupSpanDays (ts : List Time) : Nat :=
  (maxAbsHour ts - minAbsHour ts) / 24 + 1

/-- `expected_days = min(days_in_month, len(pd.date_range(...)))`
(filters.py lines 348-352). -/
def monthlyExpectedDays (times : List Time) (k : Nat × Nat) : Nat :=
  min (daysInMonth k.1 k.2) (groupSpanDays (monthTimes times k))

/-- Number of distinct calendar days of the (year, month) group that have
at least one flag-true observation (filters.py lines 354-356). -/
def monthlyValidDays (times : List Time) (col : List Bool) (k : Nat × Nat) : Nat :=
  (((times.zip col).filter (fun p => decide (ymKey p.1 = k) && p.2)).map
    (fun p => dayKey p.1)).dedup.length

/-- The monthly rejection test: `valid_days / expected_days < min_completeness`. -/
def monthBelow (times : List Time) (col : List Bool) (mc : Rat) (k : Nat × Nat) : Bool :=
  decide ((monthlyValidDays times col k : Rat) / (monthlyExpectedDays times k : Rat) < mc)

/-- Fold over the group keys: for each key whose group fails its
completeness test, set the flag of every observation with that key to
false (the `output_flags[group.index, station] = False` writes).  The
conditions are evaluated on the captured input column, exactly as the
source reads the original flags while writing into a copy. -/
def applyGroupRejects {κ : Type} [DecidableEq κ] (times : List Time) (keyf : Time → κ)
    (cond : κ → Bool) (keys : List κ) (l : List Bool) : List Bool :=
  keys.foldl
    (fun acc k =>
      if cond k then List.zipWith (fun ti b => if keyf ti = k then false else b) times acc
      else acc) l

/-- The per-station completeness pass (the body of the station loop of
`filter_by_completeness_temporal`, filters.py lines 310-365): daily check
first, then, if the dataset spans at least 30 days, the monthly check. -/
def stationCompletenessFlags (times : List Time) (col : List Bool) (mc : Rat) : List Bool :=
  let afterDaily :=
    applyGroupRejects times dayKey (dayBelow times col mc) ((times.map dayKey).dedup) col
  if 30 ≤ globalSpanDays times then
    applyGroupRejects times ymKey (monthBelow times col mc) ((times.map ymKey).dedup) afterDaily
  else afterDaily

/-- Station column `s` of a flag grid. -/
def columnOf (flags : List (List Bool)) (s : Nat) : List Bool :=
  flags.map (fun row => row.getD s false)

/-- `filter_by_completeness_temporal` (filters.py lines 263-367).  The
`data` argument is part of the source signature but never read by the
completeness computation; the statistics bookkeeping, which does not
affect the returned flags, is not modelled. -/
def filter_by_completeness_temporal (data : List (List QF)) (flags : List (List Bool))
    (times : List Time) (mc : Rat) : List (List Bool) :=
  mapWithIdx
    (fun t row =>
      mapWithIdx (fun s b => ((stationCompletenessFlags times (columnOf flags s) mc)[t]?).getD b)
        0 row)
    0 flags

/-- Parameters of `buddy_check` (filters.py line 206), as the pipeline
passes them in one dictionary. -/
structure BuddyParams where
  radius : Rat
  num_min : Nat
  threshold : Rat
  max_elev_diff : Rat
  elev_gradient : Rat
  min_std : Rat
  num_iterations : Nat
deriving Repr

/-- Squared planar distance between stations `i` and `j` with coordinate
lists `xs`, `ys`.  `within radius r` is embedded as `sqDistP <= r ^ 2`,
which is exactly the semantics of the KD-tree ball query for `r >= 0`. -/
def sqDistP (xs ys : List Rat) (i j : Nat) : Rat :=
  (xs.getD j 0 - xs.getD i 0) ^ 2 + (ys.getD j 0 - ys.getD i 0) ^ 2

/-- The valid neighbors of station `i` in `buddy_check`: stations within
`radius`, other than `i` itself, with a non-missing value and, when
`max_elev_diff > 0`, within `max_elev_diff` of the elevation of `i`
(filters.py lines 224-236). -/
def buddyValidNeighbors (xs ys alts : List Rat) (values : List QF)
    (radius max_elev_diff : Rat) (i : Nat) : List Nat :=
  let base :=
    ((List.range values.length).filter
        (fun j => decide (sqDistP xs ys i j ≤ radius ^ 2))).filter
      (fun j => decide (j ≠ i) && (values.getD j none).isSome)
  if 0 < max_elev_diff then
    base.filter (fun j => decide (|alts.getD j 0 - alts.getD i 0| ≤ max_elev_diff))
  else base

/-- Arithmetic mean of a list (`np.mean`); the empty case is guarded at
every use site, mirroring the NaN the source would produce there. -/
def qMean (l : List Rat) : Rat := l.sum / l.length

/-- Population variance of a list (the square of `np.std`). -/
def variancePop (l : List Rat) : Rat :=
  ((l.map (fun x => (x - qMean l) ^ 2)).sum) / l.length

/-- The standard deviation actually used by the buddy comparison:
`max(np.std(neighbor_values), min_std)` (filters.py line 248), with the
floating square root abstracted as `sqrtQ`. -/
def buddyStdUsed (sqrtQ : Rat → Rat) (nv : List Rat) (min_std : Rat) : Rat :=
  max (sqrtQ (variancePop nv)) min_std

/-- The value of a non-missing station, after the neighbor filters. -/
def valueAt (values : List QF) (j : Nat) : Rat := (values.getD j none).getD 0

/-- The suspect decision of `buddy_check` for a station `i` holding the
non-missing value `v` (filters.py lines 230-251): insufficient neighbors
flag unconditionally; otherwise the elevation-gradient-corrected
neighborhood mean and floored standard deviation drive the outlier test.
An empty neighborhood (reachable only with `num_min = 0`) makes the
source compare against NaN, hence never flags. -/
def buddyDecision (sqrtQ : Rat → Rat) (xs ys alts : List Rat) (values : List QF)
    (p : BuddyParams) (i : Nat) (v : Rat) : Bool :=
  let nbrs := buddyValidNeighbors xs ys alts values p.radius p.max_elev_diff i
  if nbrs.length < p.num_min then true
  else if nbrs.isEmpty then false
  else
    let nv0 := nbrs.map (fun j => valueAt values j)
    let nv :=
      if p.elev_gradient ≠ 0 then
        List.zipWith (fun x j => x + p.elev_gradient * (alts.getD j 0 - alts.getD i 0)) nv0 nbrs
      else nv0
    decide (p.threshold * buddyStdUsed sqrtQ nv p.min_std < |v - qMean nv|)

/-- One iteration of the buddy loop over all stations: missing stations
are skipped (their flag, set at initialisation, is kept), the rest get
their suspect decision OR-ed in. -/
def buddyStepFlags (sqrtQ : Rat → Rat) (xs ys alts : List Rat) (values : List QF)
    (p : BuddyParams) (flags : List Bool) : List Bool :=
  mapWithIdx
    (fun i b =>
      match values.getD i none with
      | none => b
      | some v => b || buddyDecision sqrtQ xs ys alts values p i v)
    0 flags

/-- The `num_iterations` loop of `buddy_check`. -/
def buddyIter (sqrtQ : Rat → Rat) (xs ys alts : List Rat) (values : List QF)
    (p : BuddyParams) : Nat → List Bool → List Bool
  | 0, fl => fl
  | k + 1, fl => buddyIter sqrtQ xs ys alts values p k (buddyStepFlags sqrtQ xs ys alts values p fl)

/-- `buddy_check` (filters.py lines 206-253) on planar station coordinates:
missing values are flagged suspect at initialisation, then the per-station
outlier test runs `num_iterations` times. -/
def buddy_check (sqrtQ : Rat → Rat) (xs ys alts : List Rat) (values : List QF)
    (p : BuddyParams) : List Bool :=
  buddyIter sqrtQ xs ys alts values p p.num_iterations (values.map Option.isNone)

/-- Parameters of `spatial_temporal_consistency_test` (filters.py lines
31-41), as the pipeline passes them in one dictionary.
`min_horizontal_scale` and `prob_gross_error` appear in the source
signature but are never read by the body. -/
structure SctParams where
  inner_radius : Rat
  outer_radius : Rat
  num_min : Nat
  num_max : Nat
  pos_threshold : Rat
  neg_threshold : Rat
  min_elev_diff : Rat
  max_elev_diff : Rat
  min_horizontal_scale : Rat
  vertical_scale : Rat
  temporal_threshold : Rat
  eps : Rat
  prob_gross_error : Rat
deriving Repr

/-- The loop-invariant data of the STCT spatial pass: coordinates, values,
the precomputed temporal flags, the eligibility mask and the parameters. -/
structure SctCtx where
  sqrtQ : Rat → Rat
  lats : List Rat
  lons : List Rat
  alts : List Rat
  values : List QF
  tflags : List Bool
  obs : List Bool
  p : SctParams

/-- Number of stations (`len(values)`). -/
def sctN (c : SctCtx) : Nat := c.values.length

/-- The temporal pass (filters.py lines 77-85): a station is temporally
suspect when its jump to the previous or next observation exceeds the
threshold; skipped entirely when either shifted array is absent, and NaN
differences never flag. -/
def sctTemporalFlags (values : List QF) (prev next : Option (List QF)) (tth : Rat) : List Bool :=
  mapWithIdx
    (fun i v =>
      match prev, next with
      | some pv, some nv =>
          fGtQ (fAbs (fSub v (pv.getD i none))) tth || fGtQ (fAbs (fSub v (nv.getD i none))) tth
      | _, _ => false)
    0 values

/-- `np.where(obs_to_check & ~processed)[0]`: the ascending list of
eligible, not yet processed station indices. -/
def sctEligible (c : SctCtx) (processed : List Bool) : List Nat :=
  (List.range (sctN c)).filter (fun i => c.obs.getD i false && !(processed.getD i false))

/-- `tree.query_ball_point([lon_i, lat_i], r)`: all stations within `r`,
the center included. -/
def sctBall (c : SctCtx) (i : Nat) (r : Rat) : List Nat :=
  (List.range (sctN c)).filter (fun j => decide (sqDistP c.lons c.lats i j ≤ r ^ 2))

/-- Insert an index into a key-sorted index list, keeping earlier indices
before later ones on equal keys. -/
def insertByKey (key : Nat → Rat) (j : Nat) : List Nat → List Nat
  | [] => [j]
  | k :: ks => if key j ≤ key k then j :: k :: ks else k :: insertByKey key j ks

/-- Sort an index list by a rational key (`np.argsort(distances)`; the
source leaves the order of equal keys unspecified, a stable insertion
sort is chosen here). -/
def sortByKey (key : Nat → Rat) (l : List Nat) : List Nat :=
  l.foldr (insertByKey key) []

/-- Mark a list of station indices as processed
(`processed[inner_neighbors] = True`). -/
def setAll (l : List Bool) (js : List Nat) : List Bool :=
  js.foldl (fun acc j => acc.set j true) l

/-- The body of the while loop of the STCT spatial pass for the station
`idx` at its head (filters.py lines 92-136).  Returns the updated
(flags, processed) pair.  When the elevation filter empties the pool the
source would fault in `np.average` (reachable only with `num_min = 0`);
this is modelled as a NaN background, which never flags spatially. -/
def sctStep (c : SctCtx) (flags processed : List Bool) (idx : Nat) : List Bool × List Bool :=
  let nbrs1 := (sctBall c idx c.p.outer_radius).filter
    (fun j => decide (j ≠ idx) && !(flags.getD j false))
  if nbrs1.length < c.p.num_min then
    (flags, processed.set idx true)
  else
    let nbrs2 := nbrs1.filter
      (fun j =>
        decide (c.p.min_elev_diff ≤ |c.alts.getD j 0 - c.alts.getD idx 0|) &&
        decide (|c.alts.getD j 0 - c.alts.getD idx 0| ≤ c.p.max_elev_diff))
    let nbrs3 :=
      if c.p.num_max < nbrs2.length then
        (sortByKey (fun j => sqDistP c.lons c.lats idx j) nbrs2).take c.p.num_max
      else nbrs2
    let flagged :=
      if nbrs3.isEmpty then c.tflags.getD idx false
      else
        let weight := fun j => 1 / (c.sqrtQ (sqDistP c.lons c.lats idx j) + c.p.eps)
        let wsum := (nbrs3.map weight).sum
        let wvsum := nbrs3.foldr
          (fun j acc => fAdd (fScale (weight j) (c.values.getD j none)) acc) (some 0)
        let background0 := wvsum.map (fun x => x / wsum)
        let background := fAdd background0
          (some (qMean (nbrs3.map (fun j => c.alts.getD j 0 - c.alts.getD idx 0)) *
            c.p.vertical_scale))
        let deviation := fSub (c.values.getD idx none) background
        let sigma := (nbrs3.foldr
            (fun j acc =>
              match c.values.getD j none, acc with
              | some x, some l => some (x :: l)
              | _, _ => none)
            (some [])).map (fun l => c.sqrtQ (variancePop l))
        fGtF deviation (fScale c.p.pos_threshold sigma) ||
          fLtF deviation (fScale (-c.p.neg_threshold) sigma) ||
          c.tflags.getD idx false
    (if flagged then flags.set idx true else flags,
      setAll (processed.set idx true) (sctBall c idx c.p.inner_radius))

/-- The while loop of one spatial pass, with explicit fuel; each
iteration pops the first eligible station.  The fuel `sctN c` given by
`sctPass` is proved sufficient below, so the fuel-exhausted branch is
never taken on the states the source reaches. -/
def sctLoop (c : SctCtx) : Nat → List Bool → List Bool → List Bool × List Bool
  | 0, flags, processed => (flags, processed)
  | fuel + 1, flags, processed =>
      match sctEligible c processed with
      | [] => (flags, processed)
      | idx :: _ =>
          let st := sctStep c flags processed idx
          sctLoop c fuel st.1 st.2

/-- One full spatial pass (one iteration of the `num_iterations` loop). -/
def sctPass (c : SctCtx) (flags processed : List Bool) : List Bool × List Bool :=
  sctLoop c (sctN c) flags processed

/-- The `for _ in range(num_iterations)` loop (filters.py line 88); the
`processed` array persists across iterations, exactly as in the source. -/
def sctIterations (c : SctCtx) : Nat → List Bool × List Bool → List Bool × List Bool
  | 0, st => st
  | k + 1, st => sctIterations c k (sctPass c st.1 st.2)

/-- `spatial_temporal_consistency_test` (filters.py lines 31-138): the
temporal pass, then `num_iterations` spatial passes; returns the spatial
flags (which also absorb the temporal flags of evaluated stations) and
the temporal flags. -/
def spatial_temporal_consistency_test (sqrtQ : Rat → Rat) (lats lons alts : List Rat)
    (values : List QF) (times : List Time) (prev next : Option (List QF))
    (p : SctParams) (num_iterations : Nat) (obs_to_check : Option (List Bool)) :
    List Bool × List Bool :=
  let obs := obs_to_check.getD (List.replicate values.length true)
  let tflags := sctTemporalFlags values prev next p.temporal_threshold
  let c : SctCtx := ⟨sqrtQ, lats, lons, alts, values, tflags, obs, p⟩
  let final := sctIterations c num_iterations
    (List.replicate values.length false, List.replicate values.length false)
  (final.1, tflags)

/-- Modelled from the spec: the variant of the spatial pass that the
specification describes, in which the processed set is fully reset
between iterations (a full reset of processed between iterations, spec
section 4.5), while the flags persist.  Defined only to compare against
the source behaviour. -/
def sctIterationsReset (c : SctCtx) : Nat → List Bool → List Bool
  | 0, fl => fl
  | k + 1, fl =>
      sctIterationsReset c k (sctPass c fl (List.replicate (sctN c) false)).1

/-- Modelled from the spec: `spatial_temporal_consistency_test` as the
spec describes it, with a full reset of the processed set between the
`num_iterations` passes. -/
def stctResetVariant (sqrtQ : Rat → Rat) (lats lons alts : List Rat)
    (values : List QF) (times : List Time) (prev next : Option (List QF))
    (p : SctParams) (num_iterations : Nat) (obs_to_check : Option (List Bool)) :
    List Bool × List Bool :=
  let obs := obs_to_check.getD (List.replicate values.length true)
  let tflags := sctTemporalFlags values prev next p.temporal_threshold
  let c : SctCtx := ⟨sqrtQ, lats, lons, alts, values, tflags, obs, p⟩
  (sctIterationsReset c num_iterations (List.replicate values.length false), tflags)

/-- The input dataset of the pipeline: the temperature grid `[time,
station]` and the per-station coordinate and elevation vectors. -/
structure Dataset where
  temperature : List (List QF)
  times : List Time
  latitude : List Rat
  longitude : List Rat
  altitude : List Rat

/-- Level 1 seasonal flags of `run_sequential_qc_pipeline`
(sequential_qc.py lines 59-63). -/
def pipelineSeasonalFlags (ds : Dataset) (st : SeasonThresholds) : List (List Bool) :=
  check_seasonal_thresholds ds.temperature ds.times st

/-- Level 1 data before the completeness re-evaluation
(sequential_qc.py lines 67-68). -/
def pipelineT1a (ds : Dataset) (st : SeasonThresholds) : List (List QF) :=
  maskGrid ds.temperature (pipelineSeasonalFlags ds st)

/-- Completeness flags after level 1 (sequential_qc.py lines 73-78). -/
def pipelineComp1 (ds : Dataset) (st : SeasonThresholds) (mc : Rat) : List (List Bool) :=
  filter_by_completeness_temporal (pipelineT1a ds st) (pipelineSeasonalFlags ds st) ds.times mc

/-- The final level 1 data grid `T_lvl1` (sequential_qc.py line 81). -/
def pipelineT1 (ds : Dataset) (st : SeasonThresholds) (mc : Rat) : List (List QF) :=
  maskGrid (pipelineT1a ds st) (pipelineComp1 ds st mc)

/-- Level 2 buddy flags (sequential_qc.py lines 88-100): the rows with at
least `num_min` non-missing values get the negated buddy-check verdicts;
the others keep the all-true initialisation.  The UTM projection the
source applies inside `buddy_check` is threaded as `proj`. -/
def pipelineBuddyFlags (proj : Rat → Rat → Rat × Rat) (sqrtQ : Rat → Rat) (ds : Dataset)
    (st : SeasonThresholds) (bp : BuddyParams) (mc : Rat) : List (List Bool) :=
  let xy := List.zipWith (fun la lo => proj la lo) ds.latitude ds.longitude
  let xs := xy.map Prod.fst
  let ys := xy.map Prod.snd
  mapWithIdx
    (fun _t row =>
      if bp.num_min ≤ countSome row then
        (buddy_check sqrtQ xs ys ds.altitude row bp).map (fun b => !b)
      else List.replicate row.length true)
    0 (pipelineT1 ds st mc)

/-- Level 2 data before the completeness re-evaluation (line 103-104). -/
def pipelineT2a (proj : Rat → Rat → Rat × Rat) (sqrtQ : Rat → Rat) (ds : Dataset)
    (st : SeasonThresholds) (bp : BuddyParams) (mc : Rat) : List (List QF) :=
  maskGrid (pipelineT1 ds st mc) (pipelineBuddyFlags proj sqrtQ ds st bp mc)

/-- Completeness flags after level 2 (lines 110-115). -/
def pipelineComp2 (proj : Rat → Rat → Rat × Rat) (sqrtQ : Rat → Rat) (ds : Dataset)
    (st : SeasonThresholds) (bp : BuddyParams) (mc : Rat) : List (List Bool) :=
  filter_by_completeness_temporal (pipelineT2a proj sqrtQ ds st bp mc)
    (pipelineBuddyFlags proj sqrtQ ds st bp mc) ds.times mc

/-- The final level 2 data grid `T_lvl2` (line 118). -/
def pipelineT2 (proj : Rat → Rat → Rat × Rat) (sqrtQ : Rat → Rat) (ds : Dataset)
    (st : SeasonThresholds) (bp : BuddyParams) (mc : Rat) : List (List QF) :=
  maskGrid (pipelineT2a proj sqrtQ ds st bp mc) (pipelineComp2 proj sqrtQ ds st bp mc)

/-- Row `t` of `np.roll(g, 1, axis=0)` after `prev_values[0] = np.nan`
(sequential_qc.py lines 129-131). -/
def rollPrevRow (g : List (List QF)) (t : Nat) : List QF :=
  if t = 0 then List.replicate (g.getD t []).length none else g.getD (t - 1) []

/-- Row `t` of `np.roll(g, -1, axis=0)` after `next_values[-1] = np.nan`
(sequential_qc.py lines 130-132). -/
def rollNextRow (g : List (List QF)) (t : Nat) : List QF :=
  if t = g.length - 1 then List.replicate (g.getD t []).length none
  else g.getD (t + 1) []

/-- Level 3 combined STCT flags (sequential_qc.py lines 125-152): rows
with at least `num_min` non-missing values get the conjunction of the
negated spatial and negated temporal verdicts; the others keep the
all-true initialisation of both arrays. -/
def pipelineSctCombined (proj : Rat → Rat → Rat × Rat) (sqrtQ : Rat → Rat) (ds : Dataset)
    (st : SeasonThresholds) (bp : BuddyParams) (sp : SctParams) (spIters : Nat)
    (mc : Rat) : List (List Bool) :=
  let T2 := pipelineT2 proj sqrtQ ds st bp mc
  mapWithIdx
    (fun t row =>
      if sp.num_min ≤ countSome row then
        let res := spatial_temporal_consistency_test sqrtQ ds.latitude ds.longitude
          ds.altitude row ds.times (some (rollPrevRow T2 t)) (some (rollNextRow T2 t))
          sp spIters none
        List.zipWith (fun a b => !a && !b) res.1 res.2
      else List.replicate row.length true)
    0 T2

/-- Level 3 data before the completeness re-evaluation (lines 155-156). -/
def pipelineT3a (proj : Rat → Rat → Rat × Rat) (sqrtQ : Rat → Rat) (ds : Dataset)
    (st : SeasonThresholds) (bp : BuddyParams) (sp : SctParams) (spIters : Nat)
    (mc : Rat) : List (List QF) :=
  maskGrid (pipelineT2 proj sqrtQ ds st bp mc)
    (pipelineSctCombined proj sqrtQ ds st bp sp spIters mc)

/-- Completeness flags after level 3 (lines 162-167). -/
def pipelineComp3 (proj : Rat → Rat → Rat × Rat) (sqrtQ : Rat → Rat) (ds : Dataset)
    (st : SeasonThresholds) (bp : BuddyParams) (sp : SctParams) (spIters : Nat)
    (mc : Rat) : List (List Bool) :=
  filter_by_completeness_temporal (pipelineT3a proj sqrtQ ds st bp sp spIters mc)
    (pipelineSctCombined proj sqrtQ ds st bp sp spIters mc) ds.times mc

/-- The final level 3 data grid `T_lvl3` (line 170). -/
def pipelineT3 (proj : Rat → Rat → Rat × Rat) (sqrtQ : Rat → Rat) (ds : Dataset)
    (st : SeasonThresholds) (bp : BuddyParams) (sp : SctParams) (spIters : Nat)
    (mc : Rat) : List (List QF) :=
  maskGrid (pipelineT3a proj sqrtQ ds st bp sp spIters mc)
    (pipelineComp3 proj sqrtQ ds st bp sp spIters mc)

/-- The per-level data grids returned by the pipeline
(`results[data]`, with the level arrays in their final, mutated state). -/
structure SeqQCResult where
  T_lvl0 : List (List QF)
  T_lvl1 : List (List QF)
  T_lvl2 : List (List QF)
  T_lvl3 : List (List QF)

/-- `run_sequential_qc_pipeline` (sequential_qc.py lines 22-192),
restricted to the data grids the claims are about.  The STCT
`num_iterations` entry of the parameter dictionary is passed as
`spIters`. -/
def run_sequential_qc_pipeline (proj : Rat → Rat → Rat × Rat) (sqrtQ : Rat → Rat)
    (ds : Dataset) (st : SeasonThresholds) (bp : BuddyParams) (sp : SctParams)
    (spIters : Nat) (mc : Rat) : SeqQCResult :=
  { T_lvl0 := ds.temperature
    T_lvl1 := pipelineT1 ds st mc
    T_lvl2 := pipelineT2 proj sqrtQ ds st bp mc
    T_lvl3 := pipelineT3 proj sqrtQ ds st bp sp spIters mc }

/-- The data grid of level `k`. -/
def levelData (r : SeqQCResult) : Fin 4 → List (List QF)
  | 0 => r.T_lvl0
  | 1 => r.T_lvl1
  | 2 => r.T_lvl2
  | 3 => r.T_lvl3

/-- A square-root stand-in for instantiating the abstract `sqrtQ`
parameter where its value is irrelevant to the run. -/
def sqrtW : Rat → Rat := fun _ => 0

/-- A planar stand-in for the UTM projection in the one-station witness
dataset, where the projected geometry is irrelevant. -/
def projW : Rat → Rat → Rat × Rat := fun la lo => (lo, la)

/-- Tiny witness dataset: one station, two hourly timesteps, the first
value missing. -/
def dsW : Dataset :=
  { temperature := [[none], [some 0]]
    times := [⟨2024, 1, 1, 0⟩, ⟨2024, 1, 1, 1⟩]
    latitude := [0]
    longitude := [0]
    altitude := [0] }

/-- Witness season thresholds: nothing configured. -/
def stW : SeasonThresholds := fun _ => none

/-- Witness buddy parameters. -/
def bpW : BuddyParams :=
  { radius := 1, num_min := 1, threshold := 3, max_elev_diff := -1,
    elev_gradient := 0, min_std := 1/10, num_iterations := 1 }

/-- Witness STCT parameters. -/
def spW : SctParams :=
  { inner_radius := 1/2, outer_radius := 1, num_min := 1, num_max := 10,
    pos_threshold := 3, neg_threshold := 3, min_elev_diff := 0, max_elev_diff := 100,
    min_horizontal_scale := 0, vertical_scale := 0, temporal_threshold := 5,
    eps := 1/10, prob_gross_error := 1/10 }

/-- Season thresholds with DJF configured to min -30, max 20. -/
def thW5 : SeasonThresholds := fun σ =>
  match σ with
  | Season.DJF => some { min? := some (-30), max? := some 20 }
  | _ => none

/-- A single January timestamp. -/
def datesW5 : List Time := [⟨2024, 1, 15, 0⟩]

/-- A single value exactly at the configured DJF minimum. -/
def valuesW5 : List (List QF) := [[some (-30)]]

/-- A single missing value. -/
def valuesW9 : List (List QF) := [[none]]

/-- A square root that is exact on every squared quantity reached by the
concrete STCT runs below (the squared distances 1 and 1/4 and the zero
variance of constant neighborhoods). -/
def sqrtCE : Rat → Rat := fun q => if q = 1 then 1 else if q = 1/4 then 1/2 else 0

/-- Concrete STCT parameters of the iteration counterexample. -/
def sctParamsCE : SctParams :=
  { inner_radius := 3/5, outer_radius := 6/5, num_min := 2, num_max := 10,
    pos_threshold := 1000, neg_threshold := 1000, min_elev_diff := 0, max_elev_diff := 100,
    min_horizontal_scale := 0, vertical_scale := 0, temporal_threshold := 5,
    eps := 1/10, prob_gross_error := 1/10 }

/-- Latitudes of the five collinear counterexample stations. -/
def latsCE : List Rat := [0, 0, 0, 0, 0]

/-- Longitudes of the five counterexample stations. -/
def lonsCE : List Rat := [0, 1, -1/2, 2, -3/2]

/-- Elevations of the five counterexample stations. -/
def altsCE : List Rat := [0, 0, 0, 0, 0]

/-- Current values of the five counterexample stations. -/
def valuesCE : List QF := [some 0, some 0, some 0, some 0, some 0]

/-- Previous values: stations 1 and 2 show a 10-degree jump, making them
temporally suspect. -/
def prevCE : Option (List QF) := some [some 0, some 10, some 10, some 0, some 0]

/-- Next values: no jumps. -/
def nextCE : Option (List QF) := some [some 0, some 0, some 0, some 0, some 0]

/-- Timestamps of the completeness counterexample: two hours on each of
January 1 and January 2, one lone hour on February 15 (so the dataset
spans more than 30 days and the monthly check runs). -/
def timesCE : List Time :=
  [⟨2024, 1, 1, 0⟩, ⟨2024, 1, 1, 1⟩, ⟨2024, 1, 2, 0⟩, ⟨2024, 1, 2, 1⟩, ⟨2024, 2, 15, 0⟩]

/-- Input flags of the completeness counterexample: everything accepted. -/
def flagsCE : List (List Bool) := [[true], [true], [true], [true], [true]]

/-- Data grid of the completeness counterexample (never read by the
completeness computation). -/
def dataCE : List (List QF) := [[some 0], [some 0], [some 0], [some 0], [some 0]]

/-- One-cell inputs for the no-resurrection witness. -/
def flagsW4 : List (List Bool) := [[false]]

/-- Data grid for the no-resurrection witness. -/
def dataW4 : List (List QF) := [[some 0]]

/-- Timestamps for the no-resurrection witness. -/
def timesW4 : List Time := [⟨2024, 1, 1, 0⟩]

theorem mapWithIdx_getElem? (f : Nat → α → β) :
    ∀ (l : List α) (k i : Nat), (mapWithIdx f k l)[i]? = (l[i]?).map (f (k + i)) := by
  intro l
  induction l with
  | nil => intro k i; simp [mapWithIdx]
  | cons a as ih =>
      intro k i
      cases i with
      | zero => simp [mapWithIdx]
      | succ j =>
          simp only [mapWithIdx, List.getElem?_cons_succ]
          rw [ih]
          have h : k + 1 + j = k + (j + 1) := by omega
          rw [h]

theorem mapWithIdx_length (f : Nat → α → β) :
    ∀ (l : List α) (k : Nat), (mapWithIdx f k l).length = l.length := by
  intro l
  induction l with
  | nil => intro k; rfl
  | cons a as ih => intro k; simp [mapWithIdx, ih]

theorem zipWith_getElem?_eq (f : α → β → γ) :
    ∀ (l1 : List α) (l2 : List β) (i : Nat),
      (List.zipWith f l1 l2)[i]? =
        match l1[i]?, l2[i]? with
        | some a, some b => some (f a b)
        | _, _ => none := by
  intro l1
  induction l1 with
  | nil => intro l2 i; simp
  | cons a as ih =>
      intro l2 i
      cases l2 with
      | nil => cases i <;> simp
      | cons b bs =>
          cases i with
          | zero => simp
          | succ j => simpa using ih bs j

theorem set_getElem?_eq (l : List Bool) (i j : Nat) (b : Bool) :
    (l.set i b)[j]? = if i = j ∧ j < l.length then some b else l[j]? := by
  induction l generalizing i j with
  | nil => simp [List.set]
  | cons a as ih =>
      cases i with
      | zero =>
          cases j with
          | zero => simp
          | succ j' => simp [List.set]
      | succ i' =>
          cases j with
          | zero => simp [List.set]
          | succ j' =>
              simp only [List.set, List.getElem?_cons_succ, List.length_cons]
              rw [ih]
              by_cases h : i' = j' ∧ j' < as.length
              · rw [if_pos h, if_pos ⟨by omega, by omega⟩]
              · rw [if_neg h, if_neg (by omega)]

theorem getD_of_getElem? {l : List α} {i : Nat} {a d : α} (h : l[i]? = some a) :
    l.getD i d = a := by
  simp [List.getD, h]

theorem mem_of_getElem?_eq : ∀ {l : List α} {i : Nat} {a : α}, l[i]? = some a → a ∈ l := by
  intro l
  induction l with
  | nil => intro i a h; simp at h
  | cons x xs ih =>
      intro i a h
      cases i with
      | zero => simp only [List.getElem?_cons_zero, Option.some.injEq] at h; subst h; simp
      | succ j =>
          simp only [List.getElem?_cons_succ] at h
          exact List.mem_cons_of_mem x (ih h)

theorem getD_eq_getElem?D (l : List α) (i : Nat) (d : α) :
    l.getD i d = (l[i]?).getD d := by
  simp [List.getD]

theorem cellV_maskGrid_none (g : List (List QF)) (fl : List (List Bool)) (t s : Nat)
    (h : cellV g t s = none) : cellV (maskGrid g fl) t s = none := by
  unfold cellV maskGrid at *
  simp only [getD_eq_getElem?D] at h ⊢
  rw [zipWith_getElem?_eq]
  rcases hg : g[t]? with _ | grow
  · simp
  · rw [hg] at h
    rcases hf : fl[t]? with _ | frow
    · simp
    · simp only [Option.getD_some] at h ⊢
      rw [zipWith_getElem?_eq]
      rcases hgs : grow[s]? with _ | v
      · simp
      · rw [hgs] at h
        simp only [Option.getD_some] at h
        subst h
        rcases hfs : frow[s]? with _ | b
        · simp
        · simp

theorem cellB_gridConstrain (dates : List Time) (values : List (List QF))
    (fl : List (List Bool)) (σ : Season) (viol : QF → Bool) :
    ∀ (t s : Nat) (d : Time) (vrow : List QF) (frow : List Bool) (v : QF) (b : Bool),
      dates[t]? = some d → values[t]? = some vrow → fl[t]? = some frow →
      vrow[s]? = some v → frow[s]? = some b →
      cellB (gridConstrain dates values fl σ viol) t s =
        some (if seasonOfMonth d.month = some σ then b && !viol v else b) := by
  induction dates generalizing values fl with
  | nil => intro t s d vrow frow v b hd; simp at hd
  | cons d0 ds ih =>
      intro t s d vrow frow v b hd hv hf hvs hfs
      cases values with
      | nil => simp at hv
      | cons vrow0 vrows =>
          cases fl with
          | nil => simp at hf
          | cons frow0 frows =>
              cases t with
              | zero =>
                  simp only [List.getElem?_cons_zero, Option.some.injEq] at hd hv hf
                  subst hd; subst hv; subst hf
                  simp only [gridConstrain, cellB, List.getElem?_cons_zero, Option.some_bind]
                  by_cases hσ : seasonOfMonth d0.month = some σ
                  · rw [if_pos hσ, if_pos hσ]
                    show (List.zipWith (fun v b => b && !viol v) vrow0 frow0)[s]? = _
                    rw [zipWith_getElem?_eq, hvs, hfs]
                  · rw [if_neg hσ, if_neg hσ]
                    show frow0[s]? = _
                    rw [hfs]
              | succ t' =>
                  simp only [List.getElem?_cons_succ] at hd hv hf
                  simpa [gridConstrain, cellB] using
                    ih vrows frows t' s d vrow frow v b hd hv hf hvs hfs

/-- Reading a cell of a `gridConstrain` result as `some` forces the inputs
to have that cell; used to thread cell existence through the fold. -/
theorem cellB_gridConstrain_shape (dates : List Time) (values : List (List QF))
    (fl : List (List Bool)) (σ : Season) (viol : QF → Bool) :
    ∀ (t s : Nat) (d : Time) (vrow : List QF) (frow : List Bool) (v : QF) (b : Bool),
      dates[t]? = some d → values[t]? = some vrow → fl[t]? = some frow →
      vrow[s]? = some v → frow[s]? = some b →
      ∃ (frow' : List Bool) (b' : Bool),
        (gridConstrain dates values fl σ viol)[t]? = some frow' ∧ frow'[s]? = some b' := by
  intro t s d vrow frow v b hd hv hf hvs hfs
  have h := cellB_gridConstrain dates values fl σ viol t s d vrow frow v b hd hv hf hvs hfs
  unfold cellB at h
  rcases hg : (gridConstrain dates values fl σ viol)[t]? with _ | frow'
  · rw [hg] at h; exact Option.noConfusion h
  · rw [hg] at h
    exact ⟨frow', _, rfl, h⟩

theorem cellB_applySeasonLimit (dates : List Time) (values : List (List QF))
    (fl : List (List Bool)) (σ : Season) (lims : SeasonLimits)
    (t s : Nat) (d : Time) (vrow : List QF) (frow : List Bool) (v : QF) (b : Bool)
    (hd : dates[t]? = some d) (hv : values[t]? = some vrow) (hf : fl[t]? = some frow)
    (hvs : vrow[s]? = some v) (hfs : frow[s]? = some b) :
    cellB (applySeasonLimit dates values fl σ lims) t s =
      some (if seasonOfMonth d.month = some σ
        then b && !boundViolMin lims v && !boundViolMax lims v else b) := by
  rcases lims with ⟨mn, mx⟩
  rcases mn with _ | m <;> rcases mx with _ | mx
  · unfold applySeasonLimit boundViolMin boundViolMax
    simp only
    rw [cellB] at *
    rw [hf]
    show frow[s]? = _
    rw [hfs]
    by_cases hσ : seasonOfMonth d.month = some σ <;> simp [hσ]
  · unfold applySeasonLimit boundViolMin boundViolMax
    simp only
    rw [cellB_gridConstrain dates values fl σ _ t s d vrow frow v b hd hv hf hvs hfs]
    by_cases hσ : seasonOfMonth d.month = some σ <;> simp [hσ]
  · unfold applySeasonLimit boundViolMin boundViolMax
    simp only
    rw [cellB_gridConstrain dates values fl σ _ t s d vrow frow v b hd hv hf hvs hfs]
    by_cases hσ : seasonOfMonth d.month = some σ <;> simp [hσ, Bool.and_assoc]
  · unfold applySeasonLimit boundViolMin boundViolMax
    simp only
    obtain ⟨frow1, b1, hf1, hfs1⟩ :=
      cellB_gridConstrain_shape dates values fl σ (fun v => fLtQ v m) t s d vrow frow v b
        hd hv hf hvs hfs
    have hb1 : cellB (gridConstrain dates values fl σ (fun v => fLtQ v m)) t s =
        some (if seasonOfMonth d.month = some σ then b && !fLtQ v m else b) :=
      cellB_gridConstrain dates values fl σ _ t s d vrow frow v b hd hv hf hvs hfs
    have hb1v : b1 = if seasonOfMonth d.month = some σ then b && !fLtQ v m else b := by
      simp [cellB, hf1, hfs1] at hb1
      exact hb1
    rw [cellB_gridConstrain dates values (gridConstrain dates values fl σ (fun v => fLtQ v m))
      σ _ t s d vrow frow1 v b1 hd hv hf1 hvs hfs1]
    by_cases hσ : seasonOfMonth d.month = some σ <;> simp [hσ, hb1v, Bool.and_assoc]

theorem cellB_applySeasonLimit_shape (dates : List Time) (values : List (List QF))
    (fl : List (List Bool)) (σ : Season) (lims : SeasonLimits)
    (t s : Nat) (d : Time) (vrow : List QF) (frow : List Bool) (v : QF) (b : Bool)
    (hd : dates[t]? = some d) (hv : values[t]? = some vrow) (hf : fl[t]? = some frow)
    (hvs : vrow[s]? = some v) (hfs : frow[s]? = some b) :
    ∃ (frow' : List Bool) (b' : Bool),
      (applySeasonLimit dates values fl σ lims)[t]? = some frow' ∧ frow'[s]? = some b' := by
  have h := cellB_applySeasonLimit dates values fl σ lims t s d vrow frow v b hd hv hf hvs hfs
  unfold cellB at h
  rcases hg : (applySeasonLimit dates values fl σ lims)[t]? with _ | frow'
  · rw [hg] at h; exact Option.noConfusion h
  · rw [hg] at h
    exact ⟨frow', _, rfl, h⟩

theorem cellB_foldSeasons (dates : List Time) (values : List (List QF))
    (th : SeasonThresholds) (t s : Nat) (d : Time) (vrow : List QF) (v : QF)
    (hd : dates[t]? = some d) (hv : values[t]? = some vrow) (hvs : vrow[s]? = some v) :
    ∀ (L : List Season) (fl : List (List Bool)) (frow : List Bool) (b : Bool),
      fl[t]? = some frow → frow[s]? = some b →
      cellB (foldSeasons dates values th L fl) t s = some (b && seasonConstraints th d v L) := by
  intro L
  induction L with
  | nil =>
      intro fl frow b hf hfs
      unfold foldSeasons seasonConstraints
      simp only [List.foldl_nil, Bool.and_true]
      rw [cellB, hf]
      show frow[s]? = _
      rw [hfs]
  | cons σ rest ih =>
      intro fl frow b hf hfs
      unfold foldSeasons
      simp only [List.foldl_cons]
      have hcons : seasonConstraints th d v (σ :: rest) =
          (constraintFor th d v σ && seasonConstraints th d v rest) := rfl
      rcases hth : th σ with _ | lims
      · have := ih fl frow b hf hfs
        unfold foldSeasons at this
        rw [this, hcons]
        unfold constraintFor
        rw [hth]
        simp
      · obtain ⟨frow', b', hf', hfs'⟩ :=
          cellB_applySeasonLimit_shape dates values fl σ lims t s d vrow frow v b hd hv hf hvs hfs
        have hb' : cellB (applySeasonLimit dates values fl σ lims) t s =
            some (if seasonOfMonth d.month = some σ
              then b && !boundViolMin lims v && !boundViolMax lims v else b) :=
          cellB_applySeasonLimit dates values fl σ lims t s d vrow frow v b hd hv hf hvs hfs
        have hb'v : b' = if seasonOfMonth d.month = some σ
            then b && !boundViolMin lims v && !boundViolMax lims v else b := by
          simp [cellB, hf', hfs'] at hb'
          exact hb'
        have := ih (applySeasonLimit dates values fl σ lims) frow' b' hf' hfs'
        unfold foldSeasons at this
        rw [this, hcons]
        unfold constraintFor
        rw [hth]
        by_cases hσ : seasonOfMonth d.month = some σ <;>
          simp [hσ, hb'v, Bool.and_assoc]

theorem cellB_check_seasonal (values : List (List QF)) (dates : List Time)
    (th : SeasonThresholds) (t s : Nat) (d : Time) (vrow : List QF) (v : QF)
    (hd : dates[t]? = some d) (hv : values[t]? = some vrow) (hvs : vrow[s]? = some v) :
    cellB (check_seasonal_thresholds values dates th) t s =
      some (seasonConstraints th d v [Season.DJF, Season.MAM, Season.JJA, Season.SON]) := by
  unfold check_seasonal_thresholds
  have hinit : (values.map (fun row => row.map (fun _ => true)))[t]? =
      some (vrow.map (fun _ => true)) := by
    rw [List.getElem?_map, hv]; rfl
  have hinits : (vrow.map (fun _ => (true : Bool)))[s]? = some true := by
    rw [List.getElem?_map, hvs]; rfl
  have := cellB_foldSeasons dates values th t s d vrow v hd hv hvs
    [Season.DJF, Season.MAM, Season.JJA, Season.SON] _ _ true hinit hinits
  rw [this]
  simp

theorem constraintFor_of_ne (th : SeasonThresholds) (d : Time) (v : QF)
    (σ σ' : Season) (hσ : seasonOfMonth d.month = some σ) (hne : σ' ≠ σ) :
    constraintFor th d v σ' = true := by
  unfold constraintFor
  rcases hth : th σ' with _ | lims
  · simp only [hth]
  · simp only [hth, hσ]
    rw [if_neg]
    intro h
    exact hne (Option.some.inj h).symm

theorem seasonConstraints_of_none (th : SeasonThresholds) (d : Time) :
    ∀ L : List Season, seasonConstraints th d none L = true := by
  intro L
  induction L with
  | nil => rfl
  | cons σ rest ih =>
      unfold seasonConstraints
      rw [ih]
      unfold constraintFor
      rcases th σ with _ | lims
      · rfl
      · rcases lims with ⟨mn, mx⟩
        rcases mn with _ | m <;> rcases mx with _ | mx <;>
          by_cases hσ : seasonOfMonth d.month = some σ <;>
            simp [hσ, boundViolMin, boundViolMax, fLtQ, fGtQ]

theorem applyGroupRejects_getElem? {κ : Type} [DecidableEq κ] (times : List Time)
    (keyf : Time → κ) (cond : κ → Bool) :
    ∀ (keys : List κ) (l : List Bool) (i : Nat) (ti : Time) (b : Bool),
      times[i]? = some ti → l[i]? = some b →
      (applyGroupRejects times keyf cond keys l)[i]? =
        some (b && !(decide (keyf ti ∈ keys) && cond (keyf ti))) := by
  intro keys
  induction keys with
  | nil =>
      intro l i ti b hti hb
      unfold applyGroupRejects
      simp [hb]
  | cons k ks ih =>
      intro l i ti b hti hb
      unfold applyGroupRejects
      simp only [List.foldl_cons]
      by_cases hc : cond k = true
      · rw [if_pos hc]
        have hstep : (List.zipWith (fun ti b => if keyf ti = k then false else b) times l)[i]? =
            some (if keyf ti = k then false else b) := by
          rw [zipWith_getElem?_eq, hti, hb]
        have := ih (List.zipWith (fun ti b => if keyf ti = k then false else b) times l)
          i ti (if keyf ti = k then false else b) hti hstep
        unfold applyGroupRejects at this
        rw [this]
        by_cases hk : keyf ti = k
        · simp [hk, hc]
        · simp [hk]
      · rw [if_neg hc]
        have := ih l i ti b hti hb
        unfold applyGroupRejects at this
        rw [this]
        by_cases hmem : keyf ti ∈ ks
        · simp [hmem, hc]
        · simp only [List.mem_cons]
          by_cases hk : keyf ti = k
          · simp [hk, hmem, Bool.eq_false_iff.mpr hc]
          · simp [hk, hmem]

theorem applyGroupRejects_getElem?_mem {κ : Type} [DecidableEq κ] (times : List Time)
    (keyf : Time → κ) (cond : κ → Bool) (keys : List κ) (l : List Bool) (i : Nat)
    (ti : Time) (b : Bool) (hti : times[i]? = some ti) (hb : l[i]? = some b)
    (hmem : keyf ti ∈ keys) :
    (applyGroupRejects times keyf cond keys l)[i]? = some (b && !cond (keyf ti)) := by
  have hd := applyGroupRejects_getElem? times keyf cond keys l i ti b hti hb
  simp [hmem] at hd
  exact hd

theorem stationCompletenessFlags_getElem? (times : List Time) (col : List Bool) (mc : Rat)
    (i : Nat) (ti : Time) (b : Bool) (hti : times[i]? = some ti) (hb : col[i]? = some b) :
    (stationCompletenessFlags times col mc)[i]? =
      some (b && !dayBelow times col mc (dayKey ti) &&
        !(decide (30 ≤ globalSpanDays times) && monthBelow times col mc (ymKey ti))) := by
  have hmemd : dayKey ti ∈ (times.map dayKey).dedup := by
    rw [List.mem_dedup]
    exact List.mem_map_of_mem dayKey (mem_of_getElem?_eq hti)
  have hd := applyGroupRejects_getElem?_mem times dayKey (dayBelow times col mc)
    ((times.map dayKey).dedup) col i ti b hti hb hmemd
  simp only [stationCompletenessFlags]
  by_cases hg : 30 ≤ globalSpanDays times
  · rw [if_pos hg]
    have hmemm : ymKey ti ∈ (times.map ymKey).dedup := by
      rw [List.mem_dedup]
      exact List.mem_map_of_mem ymKey (mem_of_getElem?_eq hti)
    have hm := applyGroupRejects_getElem?_mem times ymKey (monthBelow times col mc)
      ((times.map ymKey).dedup)
      (applyGroupRejects times dayKey (dayBelow times col mc) ((times.map dayKey).dedup) col)
      i ti (b && !dayBelow times col mc (dayKey ti)) hti hd hmemm
    rw [hm]
    simp [hg]
  · rw [if_neg hg]
    rw [hd]
    simp [hg]

theorem cellB_filter_completeness (data : List (List QF)) (flags : List (List Bool))
    (times : List Time) (mc : Rat) (t s : Nat) (row : List Bool) (b : Bool) (ti : Time)
    (hrow : flags[t]? = some row) (hb : row[s]? = some b) (hti : times[t]? = some ti) :
    cellB (filter_by_completeness_temporal data flags times mc) t s =
      some (b && !dayBelow times (columnOf flags s) mc (dayKey ti) &&
        !(decide (30 ≤ globalSpanDays times) &&
          monthBelow times (columnOf flags s) mc (ymKey ti))) := by
  unfold filter_by_completeness_temporal cellB
  rw [mapWithIdx_getElem?, hrow]
  simp only [Option.map_some', Option.bind_eq_bind, Option.some_bind, Nat.zero_add]
  rw [mapWithIdx_getElem?, hb]
  simp only [Option.map_some', Nat.zero_add]
  have hcol : (columnOf flags s)[t]? = some b := by
    unfold columnOf
    rw [List.getElem?_map, hrow]
    simp only [Option.map_some']
    rw [getD_of_getElem? hb]
  rw [stationCompletenessFlags_getElem? times (columnOf flags s) mc t ti b hti hcol]
  rfl

theorem buddyStepFlags_getElem? (sqrtQ : Rat → Rat) (xs ys alts : List Rat)
    (values : List QF) (p : BuddyParams) (flags : List Bool) (i : Nat) :
    (buddyStepFlags sqrtQ xs ys alts values p flags)[i]? =
      (flags[i]?).map
        (fun b =>
          match values.getD i none with
          | none => b
          | some v => b || buddyDecision sqrtQ xs ys alts values p i v) := by
  unfold buddyStepFlags
  rw [mapWithIdx_getElem?]
  simp

theorem buddyIter_true_mono (sqrtQ : Rat → Rat) (xs ys alts : List Rat)
    (values : List QF) (p : BuddyParams) :
    ∀ (k : Nat) (fl : List Bool) (i : Nat), fl[i]? = some true →
      (buddyIter sqrtQ xs ys alts values p k fl)[i]? = some true := by
  intro k
  induction k with
  | zero => intro fl i h; exact h
  | succ k' ih =>
      intro fl i h
      unfold buddyIter
      apply ih
      rw [buddyStepFlags_getElem?, h]
      rcases values.getD i none with _ | v <;> simp

theorem setAll_length : ∀ (js : List Nat) (l : List Bool), (setAll l js).length = l.length := by
  intro js
  induction js with
  | nil => intro l; rfl
  | cons j js ih =>
      intro l
      unfold setAll
      simp only [List.foldl_cons]
      have := ih (l.set j true)
      unfold setAll at this
      rw [this, List.length_set]

theorem getD_set_true_mono (l : List Bool) (i j : Nat) (h : l.getD j false = true) :
    (l.set i true).getD j false = true := by
  rw [getD_eq_getElem?D] at h ⊢
  rw [set_getElem?_eq]
  by_cases hc : i = j ∧ j < l.length
  · rw [if_pos hc]; rfl
  · rw [if_neg hc]; exact h

theorem setAll_getD_mono : ∀ (js : List Nat) (l : List Bool) (j : Nat),
    l.getD j false = true → (setAll l js).getD j false = true := by
  intro js
  induction js with
  | nil => intro l j h; exact h
  | cons k ks ih =>
      intro l j h
      unfold setAll
      simp only [List.foldl_cons]
      have := ih (l.set k true) j (getD_set_true_mono l k j h)
      unfold setAll at this
      exact this

theorem getD_set_true_self (l : List Bool) (i : Nat) (h : i < l.length) :
    (l.set i true).getD i false = true := by
  rw [getD_eq_getElem?D, set_getElem?_eq, if_pos ⟨rfl, h⟩]
  rfl

theorem filter_length_le_of_imp (p q : Nat → Bool) :
    ∀ l : List Nat, (∀ x ∈ l, q x = true → p x = true) →
      (l.filter q).length ≤ (l.filter p).length := by
  intro l
  induction l with
  | nil => intro _; simp
  | cons a as ih =>
      intro h
      have has : ∀ x ∈ as, q x = true → p x = true := fun x hx => h x (List.mem_cons_of_mem a hx)
      have hrec := ih has
      simp only [List.filter_cons]
      by_cases hq : q a = true <;> by_cases hp : p a = true
      · simp only [hq, hp, if_pos, List.length_cons]
        omega
      · exact absurd (h a (List.mem_cons_self a as) hq) hp
      · simp [hq, hp]
        omega
      · simp [hq, hp]
        omega

theorem filter_length_lt_of (p q : Nat → Bool) :
    ∀ (l : List Nat), (∀ x ∈ l, q x = true → p x = true) →
      ∀ a ∈ l, p a = true → q a = false →
      (l.filter q).length < (l.filter p).length := by
  intro l
  induction l with
  | nil => intro _ a ha; simp at ha
  | cons b bs ih =>
      intro h a ha hpa hqa
      have hbs : ∀ x ∈ bs, q x = true → p x = true := fun x hx => h x (List.mem_cons_of_mem b hx)
      simp only [List.filter_cons]
      rcases List.mem_cons.mp ha with hab | hmem
      · subst hab
        have hqf : ¬ (q a = true) := by simp [hqa]
        have hle := filter_length_le_of_imp p q bs hbs
        simp [hpa, hqf]
        omega
      · have hrec := ih hbs a hmem hpa hqa
        by_cases hq : q b = true <;> by_cases hp : p b = true
        · simp only [hq, hp, if_pos, List.length_cons]
          omega
        · exact absurd (h b (List.mem_cons_self b bs) hq) hp
        · simp [hq, hp]
          omega
        · simp [hq, hp]
          omega

theorem sctStep_snd (c : SctCtx) (flags processed : List Bool) (idx : Nat) :
    (sctStep c flags processed idx).2 = processed.set idx true ∨
    (sctStep c flags processed idx).2 =
      setAll (processed.set idx true) (sctBall c idx c.p.inner_radius) := by
  simp only [sctStep]
  split
  · left; rfl
  · right; rfl

theorem sctStep_processed_length (c : SctCtx) (flags processed : List Bool) (idx : Nat) :
    (sctStep c flags processed idx).2.length = processed.length := by
  rcases sctStep_snd c flags processed idx with h | h <;> rw [h]
  · rw [List.length_set]
  · rw [setAll_length, List.length_set]

theorem sctStep_processed_mono (c : SctCtx) (flags processed : List Bool) (idx j : Nat)
    (h : processed.getD j false = true) :
    (sctStep c flags processed idx).2.getD j false = true := by
  rcases sctStep_snd c flags processed idx with hs | hs <;> rw [hs]
  · exact getD_set_true_mono processed idx j h
  · exact setAll_getD_mono _ _ j (getD_set_true_mono processed idx j h)

theorem sctStep_processed_self (c : SctCtx) (flags processed : List Bool) (idx : Nat)
    (h : idx < processed.length) :
    (sctStep c flags processed idx).2.getD idx false = true := by
  rcases sctStep_snd c flags processed idx with hs | hs <;> rw [hs]
  · exact getD_set_true_self processed idx h
  · exact setAll_getD_mono _ _ idx (getD_set_true_self processed idx h)

theorem sctEligible_head (c : SctCtx) (processed : List Bool) (idx : Nat) (rest : List Nat)
    (h : sctEligible c processed = idx :: rest) :
    idx < sctN c ∧ c.obs.getD idx false = true ∧ processed.getD idx false = false := by
  have hm : idx ∈ sctEligible c processed := by rw [h]; simp
  unfold sctEligible at hm
  have h1 := List.mem_range.mp (List.mem_of_mem_filter hm)
  have h2 := List.of_mem_filter hm
  simp only [Bool.and_eq_true, Bool.not_eq_true'] at h2
  exact ⟨h1, h2.1, h2.2⟩

theorem sctEligible_step_lt (c : SctCtx) (flags processed : List Bool) (idx : Nat)
    (rest : List Nat) (hlen : processed.length = sctN c)
    (h : sctEligible c processed = idx :: rest) :
    (sctEligible c (sctStep c flags processed idx).2).length <
      (sctEligible c processed).length := by
  obtain ⟨hn, hobs, hpr⟩ := sctEligible_head c processed idx rest h
  unfold sctEligible
  apply filter_length_lt_of
  · intro x hx hq
    simp only [Bool.and_eq_true, Bool.not_eq_true'] at hq ⊢
    refine ⟨hq.1, ?_⟩
    by_cases hpx : processed.getD x false = true
    · have hmono := sctStep_processed_mono c flags processed idx x hpx
      rw [hmono] at hq
      exact absurd hq.2 (by simp)
    · exact Bool.eq_false_iff.mpr hpx
  · exact List.mem_range.mpr hn
  · simp only [Bool.and_eq_true, Bool.not_eq_true']
    exact ⟨hobs, hpr⟩
  · have hself := sctStep_processed_self c flags processed idx (by omega)
    rw [hself]
    simp

theorem sctLoop_processed_length (c : SctCtx) :
    ∀ (fuel : Nat) (flags processed : List Bool),
      (sctLoop c fuel flags processed).2.length = processed.length := by
  intro fuel
  induction fuel with
  | zero => intro flags processed; rfl
  | succ f ih =>
      intro flags processed
      unfold sctLoop
      rcases he : sctEligible c processed with _ | ⟨idx, rest⟩
      · rfl
      · simp only
        rw [ih, sctStep_processed_length]

theorem sctLoop_saturates (c : SctCtx) :
    ∀ (fuel : Nat) (flags processed : List Bool),
      processed.length = sctN c →
      (sctEligible c processed).length ≤ fuel →
      sctEligible c (sctLoop c fuel flags processed).2 = [] := by
  intro fuel
  induction fuel with
  | zero =>
      intro flags processed _ hle
      have : sctEligible c processed = [] := List.length_eq_zero.mp (Nat.le_zero.mp hle)
      unfold sctLoop
      exact this
  | succ f ih =>
      intro flags processed hlen hle
      unfold sctLoop
      rcases he : sctEligible c processed with _ | ⟨idx, rest⟩
      · exact he
      · simp only
        apply ih
        · rw [sctStep_processed_length]; exact hlen
        · have hlt := sctEligible_step_lt c flags processed idx rest hlen he
          rw [he] at hlt
          simp only [List.length_cons] at hlt
          rw [he] at hle
          simp only [List.length_cons] at hle
          omega

theorem sctLoop_noop (c : SctCtx) (fuel : Nat) (flags processed : List Bool)
    (h : sctEligible c processed = []) :
    sctLoop c fuel flags processed = (flags, processed) := by
  cases fuel with
  | zero => rfl
  | succ f =>
      unfold sctLoop
      rw [h]

theorem sctPass_saturates (c : SctCtx) (flags processed : List Bool)
    (hlen : processed.length = sctN c) :
    sctEligible c (sctPass c flags processed).2 = [] := by
  unfold sctPass
  apply sctLoop_saturates c (sctN c) flags processed hlen
  unfold sctEligible
  calc ((List.range (sctN c)).filter _).length ≤ (List.range (sctN c)).length :=
        List.length_filter_le _ _
    _ = sctN c := List.length_range (sctN c)

theorem sctPass_processed_length (c : SctCtx) (flags processed : List Bool) :
    (sctPass c flags processed).2.length = processed.length :=
  sctLoop_processed_length c (sctN c) flags processed

theorem sctIterations_noop (c : SctCtx) :
    ∀ (k : Nat) (st : List Bool × List Bool), sctEligible c st.2 = [] →
      sctIterations c k st = st := by
  intro k
  induction k with
  | zero => intro st _; rfl
  | succ k' ih =>
      intro st h
      unfold sctIterations
      have hp : sctPass c st.1 st.2 = (st.1, st.2) := sctLoop_noop c (sctN c) st.1 st.2 h
      rw [hp]
      exact ih (st.1, st.2) h

theorem sctIterations_collapse (c : SctCtx) (st : List Bool × List Bool)
    (hlen : st.2.length = sctN c) :
    ∀ k : Nat, sctIterations c (k + 1) st = sctIterations c 1 st := by
  intro k
  have hsat : sctEligible c (sctPass c st.1 st.2).2 = [] :=
    sctPass_saturates c st.1 st.2 hlen
  show sctIterations c k (sctPass c st.1 st.2) = sctIterations c 1 st
  rw [sctIterations_noop c k (sctPass c st.1 st.2) hsat]
  show _ = sctIterations c 0 (sctPass c st.1 st.2)
  rfl

theorem stct_iterations_eq_one (sqrtQ : Rat → Rat) (lats lons alts : List Rat)
    (values : List QF) (times : List Time) (prev next : Option (List QF))
    (p : SctParams) (obs_to_check : Option (List Bool)) (n : Nat) (hn : 1 ≤ n) :
    spatial_temporal_consistency_test sqrtQ lats lons alts values times prev next p n
        obs_to_check =
      spatial_temporal_consistency_test sqrtQ lats lons alts values times prev next p 1
        obs_to_check := by
  rcases n with _ | k
  · omega
  · simp only [spatial_temporal_consistency_test]
    rw [sctIterations_collapse _ _ (by simp [sctN]) k]

theorem constraintFor_self (th : SeasonThresholds) (d : Time) (v : QF) (σ : Season)
    (hσ : seasonOfMonth d.month = some σ) :
    constraintFor th d v σ =
      (match th σ with
      | none => true
      | some lims => !boundViolMin lims v && !boundViolMax lims v) := by
  unfold constraintFor
  rcases hth : th σ with _ | lims <;> simp [hth, hσ]

theorem seasonConstraints_all (th : SeasonThresholds) (d : Time) (v : QF) (σ : Season)
    (hσ : seasonOfMonth d.month = some σ) :
    seasonConstraints th d v [Season.DJF, Season.MAM, Season.JJA, Season.SON] =
      (match th σ with
      | none => true
      | some lims => !boundViolMin lims v && !boundViolMax lims v) := by
  have hself := constraintFor_self th d v σ hσ
  cases σ
  · simp only [seasonConstraints]
    rw [constraintFor_of_ne th d v _ Season.MAM hσ (by decide),
      constraintFor_of_ne th d v _ Season.JJA hσ (by decide),
      constraintFor_of_ne th d v _ Season.SON hσ (by decide), hself]
    simp
  · simp only [seasonConstraints]
    rw [constraintFor_of_ne th d v _ Season.DJF hσ (by decide),
      constraintFor_of_ne th d v _ Season.JJA hσ (by decide),
      constraintFor_of_ne th d v _ Season.SON hσ (by decide), hself]
    simp
  · simp only [seasonConstraints]
    rw [constraintFor_of_ne th d v _ Season.DJF hσ (by decide),
      constraintFor_of_ne th d v _ Season.MAM hσ (by decide),
      constraintFor_of_ne th d v _ Season.SON hσ (by decide), hself]
    simp
  · simp only [seasonConstraints]
    rw [constraintFor_of_ne th d v _ Season.DJF hσ (by decide),
      constraintFor_of_ne th d v _ Season.MAM hσ (by decide),
      constraintFor_of_ne th d v _ Season.JJA hσ (by decide), hself]
    simp

theorem pipelineT1_narrows (ds : Dataset) (st : SeasonThresholds) (mc : Rat) (t s : Nat)
    (h : cellV ds.temperature t s = none) : cellV (pipelineT1 ds st mc) t s = none := by
  unfold pipelineT1 pipelineT1a
  exact cellV_maskGrid_none _ _ _ _ (cellV_maskGrid_none _ _ _ _ h)

theorem pipelineT2_narrows (proj : Rat → Rat → Rat × Rat) (sqrtQ : Rat → Rat) (ds : Dataset)
    (st : SeasonThresholds) (bp : BuddyParams) (mc : Rat) (t s : Nat)
    (h : cellV (pipelineT1 ds st mc) t s = none) :
    cellV (pipelineT2 proj sqrtQ ds st bp mc) t s = none := by
  unfold pipelineT2 pipelineT2a
  exact cellV_maskGrid_none _ _ _ _ (cellV_maskGrid_none _ _ _ _ h)

theorem pipelineT3_narrows (proj : Rat → Rat → Rat × Rat) (sqrtQ : Rat → Rat) (ds : Dataset)
    (st : SeasonThresholds) (bp : BuddyParams) (sp : SctParams) (spIters : Nat) (mc : Rat)
    (t s : Nat) (h : cellV (pipelineT2 proj sqrtQ ds st bp mc) t s = none) :
    cellV (pipelineT3 proj sqrtQ ds st bp sp spIters mc) t s = none := by
  unfold pipelineT3 pipelineT3a
  exact cellV_maskGrid_none _ _ _ _ (cellV_maskGrid_none _ _ _ _ h)

/-- C1: in the result of `run_sequential_qc_pipeline`, a (time, station)
cell that is NaN in the level-k data grid is NaN in every later level's
data grid: the per-level grids only narrow and a rejected value is never
restored. -/
theorem c1_levels_monotone_narrowing (proj : Rat → Rat → Rat × Rat) (sqrtQ : Rat → Rat)
    (ds : Dataset) (st : SeasonThresholds) (bp : BuddyParams) (sp : SctParams)
    (spIters : Nat) (mc : Rat) (k k' : Fin 4) (hkk : k ≤ k') (t s : Nat)
    (h : cellV (levelData (run_sequential_qc_pipeline proj sqrtQ ds st bp sp spIters mc) k)
      t s = none) :
    cellV (levelData (run_sequential_qc_pipeline proj sqrtQ ds st bp sp spIters mc) k')
      t s = none := by
  have n01 := pipelineT1_narrows ds st mc
  have n12 := pipelineT2_narrows proj sqrtQ ds st bp mc
  have n23 := pipelineT3_narrows proj sqrtQ ds st bp sp spIters mc
  fin_cases k <;> fin_cases k' <;>
    simp only [levelData, run_sequential_qc_pipeline] at h ⊢ <;>
    first
      | exact h
      | exact n01 t s h
      | exact n12 t s h
      | exact n23 t s h
      | exact n12 t s (n01 t s h)
      | exact n23 t s (n12 t s h)
      | exact n23 t s (n12 t s (n01 t s h))
      | exact absurd hkk (by decide)

/-- Witness for C1 at the concrete dataset `dsW`: the missing cell of
level 0 stays missing at level 1. -/
theorem c1_levels_monotone_narrowing_witness :
    cellV (levelData (run_sequential_qc_pipeline projW sqrtW dsW stW bpW spW 1 0) 0) 0 0 =
        none ∧
      (0 : Fin 4) ≤ 1 ∧
      cellV (levelData (run_sequential_qc_pipeline projW sqrtW dsW stW bpW spW 1 0) 1) 0 0 =
        none :=
  ⟨by decide, by decide,
    c1_levels_monotone_narrowing projW sqrtW dsW stW bpW spW 1 0 0 1 (by decide) 0 0
      (by decide)⟩

/-- C2 counterexample: on a concrete five-station input with two
iterations, the source test differs from the reset-between-iterations
behaviour the claim describes, so the processed set is not reset and the
second pass does not re-examine the station set. -/
theorem c2_processed_reset_counterexample :
    (spatial_temporal_consistency_test sqrtCE latsCE lonsCE altsCE valuesCE []
        prevCE nextCE sctParamsCE 2 none).1 ≠
      (stctResetVariant sqrtCE latsCE lonsCE altsCE valuesCE []
        prevCE nextCE sctParamsCE 2 none).1 := by
  decide

/-- C2 (amended): the processed set persists across the
`num_iterations` passes; the first pass already processes every eligible
station, so every later pass finds nothing to do and the result with any
`num_iterations >= 1` equals the result with one iteration. -/
theorem c2_iterations_after_first_are_noops (sqrtQ : Rat → Rat) (lats lons alts : List Rat)
    (values : List QF) (times : List Time) (prev next : Option (List QF))
    (p : SctParams) (obs_to_check : Option (List Bool)) (n : Nat) (hn : 1 ≤ n) :
    spatial_temporal_consistency_test sqrtQ lats lons alts values times prev next p n
        obs_to_check =
      spatial_temporal_consistency_test sqrtQ lats lons alts values times prev next p 1
        obs_to_check :=
  stct_iterations_eq_one sqrtQ lats lons alts values times prev next p obs_to_check n hn

/-- Witness for the amended C2 at the concrete counterexample input. -/
theorem c2_iterations_after_first_are_noops_witness :
    (1 : Nat) ≤ 2 ∧
      spatial_temporal_consistency_test sqrtCE latsCE lonsCE altsCE valuesCE []
          prevCE nextCE sctParamsCE 2 none =
        spatial_temporal_consistency_test sqrtCE latsCE lonsCE altsCE valuesCE []
          prevCE nextCE sctParamsCE 1 none :=
  ⟨by decide,
    c2_iterations_after_first_are_noops sqrtCE latsCE lonsCE altsCE valuesCE []
      prevCE nextCE sctParamsCE none 2 (by decide)⟩

/-- C3 counterexample: on the concrete input `timesCE`, station 0 keeps
its January observations (the code ratio uses
`min(days_in_month, span of the group)` = 2 observed days), while the
ratio the claim prescribes, `valid_days / days_in_month` = 2/31, is
below the threshold 7/100, so the claim would reject the month. -/
theorem c3_expected_days_counterexample :
    cellB (filter_by_completeness_temporal dataCE flagsCE timesCE (7/100)) 0 0 = some true ∧
      monthlyValidDays timesCE (columnOf flagsCE 0) (2024, 1) = 2 ∧
      daysInMonth 2024 1 = 31 ∧
      ((monthlyValidDays timesCE (columnOf flagsCE 0) (2024, 1) : Rat) /
          (daysInMonth 2024 1 : Rat) < 7/100) := by
  refine ⟨by decide, by decide, by decide, by decide⟩

/-- C3 (amended): the monthly ratio tested is
`valid_days / min(days_in_month, group span in days)`, and a cell of the
output is accepted exactly when its input flag is true, its day passes
the daily check and, when the dataset spans at least 30 days, its
(year, month) group passes the monthly check with that expected-days
denominator. -/
theorem c3_monthly_ratio_amended (data : List (List QF)) (flags : List (List Bool))
    (times : List Time) (mc : Rat) (t s : Nat) (row : List Bool) (b : Bool) (ti : Time)
    (hrow : flags[t]? = some row) (hb : row[s]? = some b) (hti : times[t]? = some ti) :
    cellB (filter_by_completeness_temporal data flags times mc) t s =
      some (b && !dayBelow times (columnOf flags s) mc (dayKey ti) &&
        !(decide (30 ≤ globalSpanDays times) &&
          monthBelow times (columnOf flags s) mc (ymKey ti))) :=
  cellB_filter_completeness data flags times mc t s row b ti hrow hb hti

/-- Witness for the amended C3 at the concrete counterexample input. -/
theorem c3_monthly_ratio_amended_witness :
    flagsCE[0]? = some [true] ∧ ([true] : List Bool)[0]? = some true ∧
      timesCE[0]? = some ⟨2024, 1, 1, 0⟩ ∧
      cellB (filter_by_completeness_temporal dataCE flagsCE timesCE (7/100)) 0 0 =
        some true :=
  ⟨by decide, by decide, by decide, by
    have h := c3_monthly_ratio_amended dataCE flagsCE timesCE (7/100) 0 0 [true] true
      ⟨2024, 1, 1, 0⟩ (by decide) (by decide) (by decide)
    rw [h]
    decide⟩

/-- C4: `filter_by_completeness_temporal` never resurrects a rejected
observation: a cell whose input flag is false has output flag false. -/
theorem c4_completeness_never_resurrects (data : List (List QF)) (flags : List (List Bool))
    (times : List Time) (mc : Rat) (t s : Nat) (row : List Bool) (ti : Time)
    (hrow : flags[t]? = some row) (hb : row[s]? = some false) (hti : times[t]? = some ti) :
    cellB (filter_by_completeness_temporal data flags times mc) t s = some false := by
  rw [cellB_filter_completeness data flags times mc t s row false ti hrow hb hti]
  simp

/-- Witness for C4 on a one-cell grid with a rejected input flag. -/
theorem c4_completeness_never_resurrects_witness :
    flagsW4[0]? = some [false] ∧ ([false] : List Bool)[0]? = some false ∧
      timesW4[0]? = some ⟨2024, 1, 1, 0⟩ ∧
      cellB (filter_by_completeness_temporal dataW4 flagsW4 timesW4 (8/10)) 0 0 =
        some false :=
  ⟨by decide, by decide, by decide,
    c4_completeness_never_resurrects dataW4 flagsW4 timesW4 (8/10) 0 0 [false]
      ⟨2024, 1, 1, 0⟩ (by decide) (by decide) (by decide)⟩

/-- C5: a value whose season has configured bounds is rejected exactly
when it lies strictly below the configured min or strictly above the
configured max: bounds are inclusive, an unconfigured bound imposes no
constraint, and a season absent from the dictionary never rejects. -/
theorem c5_seasonal_bounds_exact (values : List (List QF)) (dates : List Time)
    (th : SeasonThresholds) (t s : Nat) (d : Time) (vrow : List QF) (v : QF) (σ : Season)
    (hd : dates[t]? = some d) (hv : values[t]? = some vrow) (hvs : vrow[s]? = some v)
    (hσ : seasonOfMonth d.month = some σ) :
    cellB (check_seasonal_thresholds values dates th) t s =
      some (match th σ with
        | none => true
        | some lims => !boundViolMin lims v && !boundViolMax lims v) := by
  rw [cellB_check_seasonal values dates th t s d vrow v hd hv hvs]
  rw [seasonConstraints_all th d v σ hσ]

/-- Witness for C5: a DJF value exactly at the configured minimum is
accepted. -/
theorem c5_seasonal_bounds_exact_witness :
    datesW5[0]? = some ⟨2024, 1, 15, 0⟩ ∧
      valuesW5[0]? = some [some (-30 : Rat)] ∧
      ([some (-30 : Rat)] : List QF)[0]? = some (some (-30 : Rat)) ∧
      seasonOfMonth 1 = some Season.DJF ∧
      cellB (check_seasonal_thresholds valuesW5 datesW5 thW5) 0 0 = some true :=
  ⟨by decide, by decide, by decide, by decide, by
    have h := c5_seasonal_bounds_exact valuesW5 datesW5 thW5 0 0 ⟨2024, 1, 15, 0⟩
      [some (-30 : Rat)] (some (-30 : Rat)) Season.DJF (by decide) (by decide) (by decide)
      (by decide)
    rw [h]
    decide⟩

/-- C6: a station with a non-missing value and fewer than `num_min`
valid neighbors is flagged suspect by `buddy_check`, whatever its own
value, for any positive iteration count. -/
theorem c6_buddy_insufficient_neighbors (sqrtQ : Rat → Rat) (xs ys alts : List Rat)
    (values : List QF) (p : BuddyParams) (i : Nat) (v : Rat)
    (hv : values[i]? = some (some v))
    (hcount : (buddyValidNeighbors xs ys alts values p.radius p.max_elev_diff i).length <
      p.num_min)
    (hiter : 0 < p.num_iterations) :
    (buddy_check sqrtQ xs ys alts values p)[i]? = some true := by
  unfold buddy_check
  rcases hn : p.num_iterations with _ | k
  · omega
  · show (buddyIter sqrtQ xs ys alts values p (k + 1) (values.map Option.isNone))[i]? =
      some true
    unfold buddyIter
    apply buddyIter_true_mono
    rw [buddyStepFlags_getElem?]
    have hinit : (values.map Option.isNone)[i]? = some false := by
      rw [List.getElem?_map, hv]; rfl
    rw [hinit]
    simp only [Option.map_some']
    have hget : values.getD i none = some v := getD_of_getElem? hv
    rw [hget]
    simp only [buddyDecision]
    rw [if_pos hcount]
    simp

/-- Witness for C6: an isolated station with one valid value. -/
theorem c6_buddy_insufficient_neighbors_witness :
    ([some 99] : List QF)[0]? = some (some 99) ∧
      (buddyValidNeighbors [0] [0] [0] [some 99] bpW.radius bpW.max_elev_diff 0).length <
        bpW.num_min ∧
      0 < bpW.num_iterations ∧
      (buddy_check sqrtW [0] [0] [0] [some 99] bpW)[0]? = some true :=
  ⟨by decide, by decide, by decide,
    c6_buddy_insufficient_neighbors sqrtW [0] [0] [0] [some 99] bpW 0 99 (by decide)
      (by decide) (by decide)⟩

/-- C7: for fixed inputs and parameters, increasing `num_iterations` of
the STCT can only add flags: a station flagged with n iterations is
flagged with m >= n iterations. -/
theorem c7_iterations_flags_monotone (sqrtQ : Rat → Rat) (lats lons alts : List Rat)
    (values : List QF) (times : List Time) (prev next : Option (List QF))
    (p : SctParams) (obs_to_check : Option (List Bool)) (n m i : Nat) (hnm : n ≤ m)
    (h : (spatial_temporal_consistency_test sqrtQ lats lons alts values times prev next
        p n obs_to_check).1[i]? = some true) :
    (spatial_temporal_consistency_test sqrtQ lats lons alts values times prev next
        p m obs_to_check).1[i]? = some true := by
  rcases n with _ | k
  · exfalso
    simp [spatial_temporal_consistency_test, sctIterations,
      List.getElem?_replicate] at h
  · rcases m with _ | j
    · omega
    · rw [stct_iterations_eq_one sqrtQ lats lons alts values times prev next p
        obs_to_check (j + 1) (by omega)]
      rw [stct_iterations_eq_one sqrtQ lats lons alts values times prev next p
        obs_to_check (k + 1) (by omega)] at h
      exact h

/-- Witness for C7 at the concrete five-station input: station 1 is
flagged with one iteration and stays flagged with two. -/
theorem c7_iterations_flags_monotone_witness :
    (1 : Nat) ≤ 2 ∧
      (spatial_temporal_consistency_test sqrtCE latsCE lonsCE altsCE valuesCE []
          prevCE nextCE sctParamsCE 1 none).1[1]? = some true ∧
      (spatial_temporal_consistency_test sqrtCE latsCE lonsCE altsCE valuesCE []
          prevCE nextCE sctParamsCE 2 none).1[1]? = some true :=
  ⟨by decide, by decide,
    c7_iterations_flags_monotone sqrtCE latsCE lonsCE altsCE valuesCE []
      prevCE nextCE sctParamsCE none 1 2 1 (by decide) (by decide)⟩

/-- C8: the standard deviation used by the buddy outlier comparison is
`max(std(neighbor_values), min_std)`, hence at least `min_std`; with a
positive `min_std` the comparison threshold can never degenerate to
zero. -/
theorem c8_buddy_min_std_floor (sqrtQ : Rat → Rat) (nv : List Rat) (min_std : Rat) :
    buddyStdUsed sqrtQ nv min_std = max (sqrtQ (variancePop nv)) min_std ∧
      min_std ≤ buddyStdUsed sqrtQ nv min_std ∧
      (0 < min_std → 0 < buddyStdUsed sqrtQ nv min_std) :=
  ⟨rfl, le_max_right _ _, fun h => lt_of_lt_of_le h (le_max_right _ _)⟩

/-- Witness for C8 on a zero-spread neighborhood with the default
`min_std` of 1/10. -/
theorem c8_buddy_min_std_floor_witness :
    (0 : Rat) < 1/10 ∧ 0 < buddyStdUsed sqrtW [0, 0] (1/10) :=
  ⟨by decide, (c8_buddy_min_std_floor sqrtW [0, 0] (1/10)).2.2 (by decide)⟩

/-- C9: `check_seasonal_thresholds` never rejects a missing value: a NaN
cell keeps a true mask for every threshold configuration. -/
theorem c9_seasonal_keeps_nan (values : List (List QF)) (dates : List Time)
    (th : SeasonThresholds) (t s : Nat) (d : Time) (vrow : List QF)
    (hd : dates[t]? = some d) (hv : values[t]? = some vrow) (hvs : vrow[s]? = some none) :
    cellB (check_seasonal_thresholds values dates th) t s = some true := by
  rw [cellB_check_seasonal values dates th t s d vrow none hd hv hvs]
  rw [seasonConstraints_of_none]

/-- Witness for C9 on a one-cell missing value under the DJF bounds. -/
theorem c9_seasonal_keeps_nan_witness :
    datesW5[0]? = some ⟨2024, 1, 15, 0⟩ ∧ valuesW9[0]? = some [none] ∧
      ([(none : QF)] : List QF)[0]? = some none ∧
      cellB (check_seasonal_thresholds valuesW9 datesW5 thW5) 0 0 = some true :=
  ⟨by decide, by decide, by decide,
    c9_seasonal_keeps_nan valuesW9 datesW5 thW5 0 0 ⟨2024, 1, 15, 0⟩ [none] (by decide)
      (by decide) (by decide)⟩

/-- C10: a timestep whose current-level row holds fewer than `num_min`
non-missing values is skipped by the buddy check (and likewise by the
STCT), leaving every station's flag at that timestep true — including
the missing values, which are therefore not marked suspect there. -/
theorem c10_sparse_timesteps_skipped (proj : Rat → Rat → Rat × Rat) (sqrtQ : Rat → Rat)
    (ds : Dataset) (st : SeasonThresholds) (bp : BuddyParams) (sp : SctParams)
    (spIters : Nat) (mc : Rat) (t : Nat) :
    (∀ row, (pipelineT1 ds st mc)[t]? = some row → countSome row < bp.num_min →
      (pipelineBuddyFlags proj sqrtQ ds st bp mc)[t]? =
        some (List.replicate row.length true)) ∧
    (∀ row, (pipelineT2 proj sqrtQ ds st bp mc)[t]? = some row →
      countSome row < sp.num_min →
      (pipelineSctCombined proj sqrtQ ds st bp sp spIters mc)[t]? =
        some (List.replicate row.length true)) := by
  constructor
  · intro row hrow hcount
    simp only [pipelineBuddyFlags]
    rw [mapWithIdx_getElem?, hrow]
    simp only [Option.map_some', Nat.zero_add]
    rw [if_neg (by omega)]
  · intro row hrow hcount
    simp only [pipelineSctCombined]
    rw [mapWithIdx_getElem?, hrow]
    simp only [Option.map_some', Nat.zero_add]
    rw [if_neg (by omega)]

/-- Witness for C10 at the concrete dataset `dsW`, whose first timestep
has no valid value. -/
theorem c10_sparse_timesteps_skipped_witness :
    (pipelineT1 dsW stW 0)[0]? = some [none] ∧
      countSome [none] < bpW.num_min ∧
      (pipelineBuddyFlags projW sqrtW dsW stW bpW 0)[0]? =
        some (List.replicate 1 true) :=
  ⟨by decide, by decide, by
    have h := (c10_sparse_timesteps_skipped projW sqrtW dsW stW bpW spW 1 0 0).1 [none]
      (by decide) (by decide)
    simpa using h⟩

end NetatmoQC
